import Mathlib

/-!
Verification of the streaming ingestion pipeline of
`realtimetrafficanalysis.py` (smart-realtime-traffic-insights).

The embedding models JSON-like message values, the producer loop
(`produce_realtime_data`), the consumer loop (`consume_realtime_data`),
the batch CSV loader (`load_csv_to_postgres`) and the dashboard's
speed-sentinel handling (`run_dashboard`), as written in the source.
-/

namespace Traffic

/-- A JSON-like value carried in a message or a table cell.
`null` models Python `None` / JSON `null`; numbers are modelled as
integers (all numeric values appearing in the verified properties are
integral; no floating-point arithmetic is performed by the modelled code). -/
inductive Val where
  | null : Val
  | str (s : String) : Val
  | num (n : Int) : Val
deriving DecidableEq, Repr

/-- A raw row / deserialized JSON object: an insertion-ordered list of
key–value pairs, as produced by `row.to_dict()` on the producer side and
`json.loads` on the consumer side. Later duplicate keys shadow earlier
ones, matching Python dict-comprehension semantics. -/
abbrev RawRow := List (String × Val)

/-- The fixed, ordered 14-field schema of `consume_realtime_data`
(source lines 114–119) and of the `realtime_traffic_data` table. -/
def fields : List String :=
  ["segmentid", "street", "direction", "from_street", "to_street",
   "length", "street_heading", "comments", "start_longitude",
   "start_latitude", "end_longitude", "end_latitude",
   "current_speed", "last_updated"]

/-- Lowercase one character, ASCII range. -/
def lowerChar (c : Char) : Char :=
  if 'A' ≤ c ∧ c ≤ 'Z' then Char.ofNat (c.toNat + 32) else c

/-- Python `str.lower` restricted to ASCII, which covers every key this
pipeline handles (CSV column names and the fixed schema names). -/
def pyLower (s : String) : String :=
  ⟨s.data.map lowerChar⟩

/-- `{k.lower(): v for k, v in msg.value.items()}` — lowercase every key
(source line 113). -/
def lowerKeys (row : RawRow) : RawRow :=
  row.map (fun p => (pyLower p.1, p.2))

/-- Last-wins association lookup: the value a Python dict built from the
pair list (later keys overwrite earlier ones) holds at key `k`. -/
def lookupLast : RawRow → String → Option Val
  | [], _ => none
  | (k', v) :: rest, k =>
    match lookupLast rest k with
    | some w => some w
    | none => if k' = k then some v else none

/-- `d.get(k, None)` on the dict built from `row` (source line 120). -/
def dictGet (row : RawRow) (k : String) : Val :=
  (lookupLast row k).getD Val.null

/-- The tuple of values inserted for one message: project the lowercased
row onto the 14 schema fields, missing keys defaulting to null
(source lines 113–120). -/
def normalizeVals (row : RawRow) : List Val :=
  fields.map (dictGet (lowerKeys row))

/-- The normalized record in field-named (wire-contract) form: the 14
schema fields paired with the values the consumer extracts. -/
def normalizeRow (row : RawRow) : RawRow :=
  fields.map (fun f => (f, dictGet (lowerKeys row) f))

/-- Exception kinds the script can hit; both consumer branches land in
the same `except Exception` handlers of the source. -/
inductive PyError where
  | fetchError : PyError
  | kafkaSendError : PyError
  | deserializeError : PyError
  | storageError : PyError
deriving DecidableEq, Repr

/-- A message on the `realtime_traffic` topic as seen by the consumer's
`value_deserializer`: either it deserializes to a row, or `json.loads`
raises (source line 103). -/
inductive WireMsg where
  | ok (row : RawRow) : WireMsg
  | bad : WireMsg
deriving DecidableEq, Repr

/-- How one invocation of `consume_realtime_data` ended:
`quotaReached` — the `record_count >= 200` break (source lines 128–130);
`streamEnded` — the consumer iterator stopped delivering messages
(`consumer_timeout_ms=10000`, source line 104);
`error` — an exception reached the `except` handler (source lines 132–133),
which prints the exception and nothing else. -/
inductive Outcome where
  | quotaReached : Outcome
  | streamEnded : Outcome
  | error (e : PyError) : Outcome
deriving DecidableEq, Repr

/-- The observable result of one consume cycle: rows inserted into
`realtime_traffic_data` (in insertion order), the final `record_count`,
how the cycle ended, the messages left unconsumed on the topic, and the
Python return value of the function (the source has no `return`
statement, so it is always `None`). -/
structure ConsumeResult where
  rows : List (List Val)
  count : Nat
  outcome : Outcome
  remaining : List WireMsg
  retVal : Option Nat
deriving DecidableEq, Repr

/-- The message loop of `consume_realtime_data` (source lines 112–130).
`failAt c` tells whether the insert executed when `record_count = c`
raises a storage error; a deserialization failure raises out of the
iterator. Either exception aborts the loop and reaches the function's
`except` handler. After a successful insert and commit the count is
incremented and the loop breaks once it reaches the quota of 200. -/
def drain (quota : Nat) (failAt : Nat → Bool) :
    List WireMsg → Nat → List (List Val) → ConsumeResult
  | [], count, rows => ⟨rows, count, .streamEnded, [], none⟩
  | .bad :: rest, count, rows => ⟨rows, count, .error .deserializeError, rest, none⟩
  | .ok r :: rest, count, rows =>
    if failAt count then ⟨rows, count, .error .storageError, rest, none⟩
    else
      let rows' := rows ++ [normalizeVals r]
      let count' := count + 1
      if quota ≤ count' then ⟨rows', count', .quotaReached, rest, none⟩
      else drain quota failAt rest count' rows'

/-- One invocation of `consume_realtime_data` over the messages `msgs`
currently deliverable from the topic, with insert behaviour `failAt`.
The quota is the hard-coded 200 of source line 128. -/
def consume_realtime_data (msgs : List WireMsg) (failAt : Nat → Bool) : ConsumeResult :=
  drain 200 failAt msgs 0 []

/-- What the consume cycle prints at its end (source lines 129, 133):
the fixed success message on quota, nothing on iterator exhaustion, and
the exception text alone on error — never the processed count. -/
def consumePrinted (res : ConsumeResult) : List String :=
  match res.outcome with
  | .quotaReached => ["200 real-time records processed"]
  | .streamEnded => []
  | .error .deserializeError => ["Kafka Error: JSONDecodeError"]
  | .error .storageError => ["Kafka Error: OperationalError"]
  | .error _ => ["Kafka Error"]

/-- The observable result of one call of `produce_realtime_data`:
the messages put on the wire (each is the serialized `row.to_dict()`,
verbatim — source line 90), the exception that reached the `except`
handler if any (source lines 92–93), and the Python return value
(the source has no `return` statement, so always `None`). -/
structure ProduceResult where
  sent : List RawRow
  err : Option PyError
  retVal : Option Nat
deriving DecidableEq, Repr

/-- The send loop of `produce_realtime_data` (source lines 89–90):
row `i` of the snapshot is sent verbatim unless sending it raises, in
which case the loop aborts with the rows already sent. -/
def sendLoop (sendFails : Nat → Bool) : List RawRow → Nat → List RawRow × Option PyError
  | [], _ => ([], none)
  | r :: rs, i =>
    if sendFails i then ([], some .kafkaSendError)
    else
      let (s, e) := sendLoop sendFails rs (i + 1)
      (r :: s, e)

/-- One invocation of `produce_realtime_data`: `fetch` is the outcome of
the HTTP GET + CSV parse (source lines 81–82), `sendFails i` tells
whether sending row `i` raises. Every exception lands in the same
`except` handler which prints it; no count is returned or printed. -/
def produce_realtime_data (fetch : Except PyError (List RawRow))
    (sendFails : Nat → Bool) : ProduceResult :=
  match fetch with
  | .error e => ⟨[], some e, none⟩
  | .ok rows =>
    let (s, e) := sendLoop sendFails rows 0
    ⟨s, e, none⟩

/-- The two database connections `consume_realtime_data` touches:
the one `ensure_realtime_table_exists` opens for table creation
(source line 40) and the consumer's own insert connection
(source line 108). -/
inductive ConnName where
  | ensureConn : ConnName
  | mainConn : ConnName
deriving DecidableEq, Repr

/-- Connection lifecycle events. -/
inductive ConnEvent where
  | opened (c : ConnName) : ConnEvent
  | closed (c : ConnName) : ConnEvent
deriving DecidableEq, Repr

/-- The connection events of one invocation of `consume_realtime_data`:
`ensure_realtime_table_exists` opens and closes its own connection
(source lines 40, 61), the consumer opens its insert connection (source
line 108), and no exit path of the function — quota break, iterator
exhaustion, or the `except` handler — ever calls `conn.close()` on it
(source lines 108–133 contain no close). -/
def consumeConnEvents (_msgs : List WireMsg) (_failAt : Nat → Bool) : List ConnEvent :=
  [.opened .ensureConn, .closed .ensureConn, .opened .mainConn]

/-- The four batch tables `load_csv_to_postgres` rewrites, paired with
their CSV paths (source lines 66–71). -/
def batchFiles : List (String × String) :=
  [("historical_traffic", "data/historical_traffic.csv"),
   ("red_light_violations", "data/red_light_violations.csv"),
   ("speed_camera_violations", "data/speed_camera_violations.csv"),
   ("traffic_crashes", "data/traffic_crashes.csv")]

/-- Database state: the rows each table currently holds. -/
abbrev TableDB := String → List (List Val)

/-- `df.to_sql(table, engine, if_exists="replace")`: the table's previous
contents are dropped wholesale and replaced by the CSV rows. -/
def replaceTable (db : TableDB) (t : String) (rows : List (List Val)) : TableDB :=
  fun u => if u = t then rows else db u

/-- `load_csv_to_postgres` (source lines 65–75): for each batch table in
order, read its CSV (`csv` maps a path to the parsed rows) and write it
with `if_exists="replace"`. -/
def load_csv_to_postgres (csv : String → List (List Val)) (db : TableDB) : TableDB :=
  batchFiles.foldl (fun acc tp => replaceTable acc tp.1 (csv tp.2)) db

/-- The sequence of steps `main` runs (source lines 243–247). -/
inductive MainStep where
  | ensureTable : MainStep
  | loadCsv : MainStep
  | startConsumerThread : MainStep
  | runDashboard : MainStep
deriving DecidableEq, Repr

/-- `main` in order: ensure the realtime table, load the batch CSVs,
start the consumer thread, run the dashboard. -/
def mainSteps : List MainStep :=
  [.ensureTable, .loadCsv, .startConsumerThread, .runDashboard]

/-- `pd.to_numeric(df['current_speed'], errors='coerce')` on a stored
cell: a numeric cell keeps its value, a null (or non-numeric) cell
becomes missing. All speeds in the verified properties are numeric or
null, so string-to-number coercion does not arise. -/
def toNumericCell : Val → Option Int
  | .num n => some n
  | _ => none

/-- `df['current_speed'].replace(-1, pd.NA)` on one cell
(source line 166): the −1 sentinel becomes missing. -/
def replaceSentinel (s : Option Int) : Option Int :=
  if s = some (-1) then none else s

/-- The index of `current_speed` in the fixed schema. -/
def speedIdx : Nat := 12

/-- The `current_speed` column value of one stored row. -/
def storedSpeed (r : List Val) : Val :=
  r.getD speedIdx Val.null

/-- The dashboard's per-row speed view after coercion and sentinel
replacement (source lines 165–166), before `dropna` removes the missing
entries (source line 167). -/
def dashboardSpeed (r : List Val) : Option Int :=
  replaceSentinel (toNumericCell (storedSpeed r))

/-- Insert behaviour in which no insert ever raises. -/
def noFail : Nat → Bool := fun _ => false

/-! ## Lemmas about lookup and normalization -/

theorem lookupLast_map_self (g : String → Val) (k : String) :
    ∀ fs : List String,
      lookupLast (fs.map (fun f => (f, g f))) k =
        if k ∈ fs then some (g k) else none := by
  intro fs
  induction fs with
  | nil => simp [lookupLast]
  | cons f fs ih =>
    simp only [List.map_cons, lookupLast, ih]
    by_cases hk : k ∈ fs
    · simp [hk]
    · by_cases hf : f = k
      · subst hf
        simp [hk]
      · simp [hk, hf, List.mem_cons, Ne.symm hf]

theorem lookupLast_none_of_no_key (k : String) :
    ∀ row : RawRow, (∀ p ∈ row, pyLower p.1 ≠ k) →
      lookupLast (lowerKeys row) k = none := by
  intro row
  induction row with
  | nil => intro _; simp [lowerKeys, lookupLast]
  | cons p row ih =>
    intro h
    have hp : pyLower p.1 ≠ k := h p (by simp)
    have hrest : lookupLast (lowerKeys row) k = none :=
      ih (fun q hq => h q (by simp [hq]))
    simp [lowerKeys, lookupLast] at hrest ⊢
    simp [hrest, hp]

theorem lookupLast_cons_ne (k' k : String) (v : Val) (rest : RawRow) (h : k' ≠ k) :
    lookupLast ((k', v) :: rest) k = lookupLast rest k := by
  simp only [lookupLast]
  cases lookupLast rest k with
  | none => simp [h]
  | some w => rfl

theorem fields_lower_fixed : ∀ f ∈ fields, pyLower f = f := by decide

theorem fields_length : fields.length = 14 := by decide

theorem lowerKeys_normalizeRow (row : RawRow) :
    lowerKeys (normalizeRow row) = normalizeRow row := by
  unfold lowerKeys normalizeRow
  rw [List.map_map]
  apply List.map_congr_left
  intro f hf
  simp [fields_lower_fixed f hf]

theorem dictGet_normalizeRow (row : RawRow) (f : String) (hf : f ∈ fields) :
    dictGet (normalizeRow row) f = dictGet (lowerKeys row) f := by
  unfold dictGet normalizeRow
  rw [lookupLast_map_self]
  simp [hf, dictGet]


example : normalizeVals [("STREET", Val.str "Ashland")] =
    [Val.null, Val.str "Ashland", Val.null, Val.null, Val.null,
     Val.null, Val.null, Val.null, Val.null, Val.null, Val.null,
     Val.null, Val.null, Val.null] := by decide

/-! ## Lemmas about the consume loop -/

theorem drain_retVal_none (quota : Nat) (failAt : Nat → Bool) :
    ∀ (msgs : List WireMsg) (c : Nat) (acc : List (List Val)),
      (drain quota failAt msgs c acc).retVal = none := by
  intro msgs
  induction msgs with
  | nil => intro c acc; rfl
  | cons m rest ih =>
    intro c acc
    cases m with
    | bad => rfl
    | ok r =>
      simp only [drain]
      by_cases hf : failAt c
      · simp [hf]
      · by_cases hq : quota ≤ c + 1
        · simp [hf, hq]
        · simp [hf, hq, ih]

theorem drain_ok_spec (quota : Nat) (failAt : Nat → Bool)
    (hfail : ∀ i, failAt i = false) :
    ∀ (rows : List RawRow) (c : Nat) (acc : List (List Val)), c < quota →
      drain quota failAt (rows.map .ok) c acc =
        ⟨acc ++ (rows.take (min (quota - c) rows.length)).map normalizeVals,
          c + min (quota - c) rows.length,
          if quota ≤ c + rows.length then .quotaReached else .streamEnded,
          (rows.drop (min (quota - c) rows.length)).map .ok, none⟩ := by
  intro rows
  induction rows with
  | nil =>
    intro c acc hc
    simp [drain, Nat.not_le.mpr hc]
  | cons r rs ih =>
    intro c acc hc
    simp only [List.map_cons, drain, hfail c, Bool.false_eq_true, if_false]
    by_cases hq : quota ≤ c + 1
    · have hmin : min (quota - c) (rs.length + 1) = 1 := by omega
      have hcond : quota ≤ c + (rs.length + 1) := by omega
      simp only [hq, if_true, List.length_cons, hmin, List.take_succ_cons,
        List.take_zero, List.drop_succ_cons, List.drop_zero, List.map_cons,
        List.map_nil, hcond]
    · have hc1 : c + 1 < quota := Nat.lt_of_not_le hq
      rw [if_neg hq, ih (c + 1) (acc ++ [normalizeVals r]) hc1]
      have hmin : min (quota - c) (rs.length + 1) =
          min (quota - (c + 1)) rs.length + 1 := by omega
      have harith : c + 1 + rs.length = c + (rs.length + 1) := by omega
      have hcount : c + 1 + min (quota - (c + 1)) rs.length =
          c + (min (quota - (c + 1)) rs.length + 1) := by omega
      simp only [List.length_cons, hmin, List.take_succ_cons, List.drop_succ_cons,
        List.map_cons, harith, hcount, List.append_assoc, List.singleton_append]

/-! ## C2 — quota termination -/

/-- C2: with at least 200 deliverable messages on the topic and no
storage failure, one consume cycle inserts exactly the first 200
normalized records, stops with the quota break (printing the quota
success message), and leaves the remaining messages unconsumed. -/
theorem consume_quota_termination (rows : List RawRow) (hlen : 200 ≤ rows.length) :
    consume_realtime_data (rows.map .ok) noFail =
      ⟨(rows.take 200).map normalizeVals, 200, .quotaReached,
        (rows.drop 200).map .ok, none⟩ ∧
    ((rows.take 200).map normalizeVals).length = 200 ∧
    consumePrinted (consume_realtime_data (rows.map .ok) noFail) =
      ["200 real-time records processed"] := by
  have h := drain_ok_spec 200 noFail (fun _ => rfl) rows 0 [] (by omega)
  have hmin : min (200 - 0) rows.length = 200 := by omega
  have hcond : 200 ≤ 0 + rows.length := by omega
  rw [hmin, if_pos hcond] at h
  simp only [Nat.zero_add, List.nil_append] at h
  have heq : consume_realtime_data (rows.map .ok) noFail =
      ⟨(rows.take 200).map normalizeVals, 200, .quotaReached,
        (rows.drop 200).map .ok, none⟩ := h
  refine ⟨heq, ?_, ?_⟩
  · rw [List.length_map, List.length_take]
    omega
  · rw [heq]
    rfl

/-- Witness for `consume_quota_termination` on a queue of 200 messages. -/
theorem consume_quota_termination_witness :
    200 ≤ (List.replicate 200 ([] : RawRow)).length ∧
    (consume_realtime_data ((List.replicate 200 ([] : RawRow)).map .ok) noFail =
      ⟨((List.replicate 200 ([] : RawRow)).take 200).map normalizeVals, 200,
        .quotaReached, ((List.replicate 200 ([] : RawRow)).drop 200).map .ok, none⟩ ∧
      (((List.replicate 200 ([] : RawRow)).take 200).map normalizeVals).length = 200 ∧
      consumePrinted
          (consume_realtime_data ((List.replicate 200 ([] : RawRow)).map .ok) noFail) =
        ["200 real-time records processed"]) :=
  ⟨by rw [List.length_replicate],
    consume_quota_termination (List.replicate 200 []) (by rw [List.length_replicate])⟩

/-! ## C4, C5 — consumer-side normalization -/

/-- C4: for every raw input row (any key set, any casing), the
consumer-side normalization yields a record with exactly the 14 fixed
schema fields in the fixed order; a field absent from the input maps to
null, and a pair whose lowercased key is not a schema field is dropped
(it does not affect the normalized record). -/
theorem normalize_schema_completeness (row : RawRow) (k : String) (v : Val)
    (f : String) (hf : f ∈ fields)
    (hmiss : ∀ p ∈ row, pyLower p.1 ≠ f)
    (hunk : pyLower k ∉ fields) :
    (normalizeRow row).map Prod.fst = fields ∧
    (normalizeRow row).length = 14 ∧
    (f, Val.null) ∈ normalizeRow row ∧
    normalizeRow ((k, v) :: row) = normalizeRow row := by
  refine ⟨?_, ?_, ?_, ?_⟩
  · unfold normalizeRow
    rw [List.map_map]
    exact List.map_id fields ▸ rfl
  · unfold normalizeRow
    simp [fields_length]
  · have hnull : dictGet (lowerKeys row) f = Val.null := by
      unfold dictGet
      rw [lookupLast_none_of_no_key f row hmiss]
      rfl
    unfold normalizeRow
    exact List.mem_map.mpr ⟨f, hf, by rw [hnull]⟩
  · unfold normalizeRow
    apply List.map_congr_left
    intro f' hf'
    have hne : pyLower k ≠ f' := fun he => hunk (he ▸ hf')
    have : dictGet (lowerKeys ((k, v) :: row)) f' = dictGet (lowerKeys row) f' := by
      unfold dictGet
      rw [show lowerKeys ((k, v) :: row) = (pyLower k, v) :: lowerKeys row from rfl,
        lookupLast_cons_ne _ _ _ _ hne]
    rw [this]

/-- Witness for `normalize_schema_completeness` at the concrete row
`[("Bogus", 7)]` with schema field `"street"` and unknown key `"Bogus"`. -/
theorem normalize_schema_completeness_witness :
    ("street" ∈ fields ∧
      (∀ p ∈ ([("Bogus", Val.num 7)] : RawRow), pyLower p.1 ≠ "street") ∧
      pyLower "Bogus" ∉ fields) ∧
    ((normalizeRow [("Bogus", Val.num 7)]).map Prod.fst = fields ∧
      (normalizeRow [("Bogus", Val.num 7)]).length = 14 ∧
      ("street", Val.null) ∈ normalizeRow [("Bogus", Val.num 7)] ∧
      normalizeRow (("Bogus", Val.num 7) :: [("Bogus", Val.num 7)]) =
        normalizeRow [("Bogus", Val.num 7)]) :=
  ⟨⟨by decide, by decide, by decide⟩,
    normalize_schema_completeness [("Bogus", Val.num 7)] "Bogus" (Val.num 7)
      "street" (by decide) (by decide) (by decide)⟩

/-- C5: consumer-side normalization is idempotent — projecting an
already-normalized (field-named) record through the lowercase-and-project
step again returns it unchanged. -/
theorem normalize_idempotent (row : RawRow) :
    normalizeRow (normalizeRow row) = normalizeRow row := by
  conv_lhs => rw [normalizeRow]
  rw [lowerKeys_normalizeRow]
  conv_rhs => rw [normalizeRow]
  apply List.map_congr_left
  intro f hf
  rw [dictGet_normalizeRow row f hf]

/-! ## C3 — malformed-message handling -/

/-- C3(counterexample): on the stream valid–malformed–valid, the consume
cycle stores only 1 row (not 2) and aborts with the deserialization
exception instead of skipping and counting it: the `value_deserializer`
raises inside the iterator and the single `except` handler ends the
cycle. -/
theorem malformed_aborts_cycle_counterexample :
    (consume_realtime_data
        [.ok [("segmentid", Val.str "1")], .bad, .ok [("segmentid", Val.str "2")]]
        noFail).rows.length = 1 ∧
    (consume_realtime_data
        [.ok [("segmentid", Val.str "1")], .bad, .ok [("segmentid", Val.str "2")]]
        noFail).rows.length ≠ 2 ∧
    (consume_realtime_data
        [.ok [("segmentid", Val.str "1")], .bad, .ok [("segmentid", Val.str "2")]]
        noFail).outcome = .error .deserializeError := by
  decide

/-- C3(amended): a stream containing one undeserializable message between
two valid ones yields exactly one stored row (the first valid message);
the deserialization failure aborts the cycle with the exception reaching
the function's handler, and the messages after the malformed one stay
unconsumed. No error count is recorded. -/
theorem malformed_message_aborts (r1 r2 : RawRow) (rest : List WireMsg) :
    consume_realtime_data (.ok r1 :: .bad :: .ok r2 :: rest) noFail =
      ⟨[normalizeVals r1], 1, .error .deserializeError, .ok r2 :: rest, none⟩ := by
  simp [consume_realtime_data, drain, noFail]

/-! ## C1 — what the producer puts on the wire -/

/-- C1(counterexample): the producer sends `row.to_dict()` verbatim: for
the fetched row `[("SEGMENTID", "123")]` the message on the wire is that
raw row, which is not the canonical 14-field lowercased record. -/
theorem produce_sends_raw_row_counterexample :
    (produce_realtime_data (.ok [[("SEGMENTID", Val.str "123")]]) noFail).sent =
      [[("SEGMENTID", Val.str "123")]] ∧
    ([("SEGMENTID", Val.str "123")] : RawRow) ≠
      normalizeRow [("SEGMENTID", Val.str "123")] ∧
    ([("SEGMENTID", Val.str "123")] : RawRow).map Prod.fst ≠ fields := by
  decide

theorem sendLoop_noFail : ∀ (rows : List RawRow) (i : Nat),
    sendLoop noFail rows i = (rows, none) := by
  intro rows
  induction rows with
  | nil => intro i; rfl
  | cons r rs ih => intro i; simp [sendLoop, noFail, ih]

/-- C1(amended): the producer publishes each fetched row verbatim, with
no normalization before publication; normalization happens exactly once
per consumed message, on the consumer side, which projects the wire row
onto the canonical 14-field shape before inserting it. -/
theorem normalize_once_consumer_side (rows : List RawRow) (r : RawRow) :
    (produce_realtime_data (.ok rows) noFail).sent = rows ∧
    (consume_realtime_data [.ok r] noFail).rows = [normalizeVals r] := by
  constructor
  · simp [produce_realtime_data, sendLoop_noFail]
  · simp [consume_realtime_data, drain, noFail]

/-! ## C6 — consume outcome reporting -/

/-- C6(counterexample): a successful consume cycle of one message
processes 1 record but the function returns `None`, not the processed
count. -/
theorem consume_returns_none_counterexample :
    (consume_realtime_data [.ok [("street", Val.str "A")]] noFail).count = 1 ∧
    (consume_realtime_data [.ok [("street", Val.str "A")]] noFail).retVal = none ∧
    (consume_realtime_data [.ok [("street", Val.str "A")]] noFail).retVal ≠
      some (consume_realtime_data [.ok [("street", Val.str "A")]] noFail).count := by
  decide

/-- C6(amended): the consume cycle always returns `None`, and what it
prints depends only on how the cycle ended, never on the processed
count: two runs ending the same way (for example failing after 1 and
after 0 successful inserts) print exactly the same thing. -/
theorem consume_outcome_reporting (msgs msgs' : List WireMsg)
    (failAt failAt' : Nat → Bool)
    (h : (consume_realtime_data msgs failAt).outcome =
      (consume_realtime_data msgs' failAt').outcome) :
    (consume_realtime_data msgs failAt).retVal = none ∧
    consumePrinted (consume_realtime_data msgs failAt) =
      consumePrinted (consume_realtime_data msgs' failAt') := by
  refine ⟨drain_retVal_none 200 failAt msgs 0 [], ?_⟩
  unfold consumePrinted
  rw [h]

/-- Witness for `consume_outcome_reporting`: a cycle failing after one
successful insert and a cycle failing after none print the same error
line. -/
theorem consume_outcome_reporting_witness :
    ((consume_realtime_data [.ok [], .ok []] (fun i => decide (i = 1))).outcome =
      (consume_realtime_data [.ok []] (fun i => decide (i = 0))).outcome) ∧
    ((consume_realtime_data [.ok [], .ok []] (fun i => decide (i = 1))).retVal = none ∧
      consumePrinted (consume_realtime_data [.ok [], .ok []] (fun i => decide (i = 1))) =
        consumePrinted (consume_realtime_data [.ok []] (fun i => decide (i = 0)))) :=
  ⟨by decide, consume_outcome_reporting _ _ _ _ (by decide)⟩

/-! ## C7 — publish outcome reporting -/

/-- C7(counterexample): when the second of two sends fails, one message
was actually published but the function returns `None` — the count sent
is not reported to the caller. -/
theorem produce_returns_none_counterexample :
    (produce_realtime_data (.ok [[("a", Val.num 1)], [("b", Val.num 2)]])
        (fun i => decide (i = 1))).sent.length = 1 ∧
    (produce_realtime_data (.ok [[("a", Val.num 1)], [("b", Val.num 2)]])
        (fun i => decide (i = 1))).err = some .kafkaSendError ∧
    (produce_realtime_data (.ok [[("a", Val.num 1)], [("b", Val.num 2)]])
        (fun i => decide (i = 1))).retVal = none ∧
    (produce_realtime_data (.ok [[("a", Val.num 1)], [("b", Val.num 2)]])
        (fun i => decide (i = 1))).retVal ≠ some 1 := by
  decide

theorem sendLoop_first_fail (fails : Nat → Bool) (i : Nat)
    (hbefore : ∀ j, j < i → fails j = false) (hi : fails i = true) :
    ∀ (rows : List RawRow) (off : Nat), off ≤ i →
      sendLoop fails rows off =
        if i - off < rows.length then (rows.take (i - off), some .kafkaSendError)
        else (rows, none) := by
  intro rows
  induction rows with
  | nil =>
    intro off hoff
    simp [sendLoop]
  | cons r rs ih =>
    intro off hoff
    by_cases he : off = i
    · subst he
      have hcond : off - off < (r :: rs).length := by simp
      rw [if_pos hcond, sendLoop, if_pos hi]
      simp
    · have hlt : off < i := lt_of_le_of_ne hoff he
      have hne : fails off = false := hbefore off hlt
      rw [sendLoop, if_neg (by simp [hne]), ih (off + 1) (by omega)]
      by_cases h2 : i - (off + 1) < rs.length
      · rw [if_pos h2, if_pos (by simp; omega)]
        have htake : i - off = (i - (off + 1)) + 1 := by omega
        rw [htake, List.take_succ_cons]
      · rw [if_neg h2, if_neg (by simp; omega)]

/-- C7(amended): the publish cycle sends the fetched rows in source
order up to the first send failure; the failing exception reaches the
function's `except` handler, but the function always returns `None` —
the count of messages actually sent is not reported to the caller. -/
theorem produce_partial_failure_reporting (rows : List RawRow) (i : Nat)
    (fails : Nat → Bool) (fetch : Except PyError (List RawRow))
    (hbefore : ∀ j, j < i → fails j = false) (hi : fails i = true)
    (hlen : i < rows.length) :
    (produce_realtime_data (.ok rows) fails).sent = rows.take i ∧
    (produce_realtime_data (.ok rows) fails).err = some .kafkaSendError ∧
    (produce_realtime_data fetch fails).retVal = none := by
  have hsl := sendLoop_first_fail fails i hbefore hi rows 0 (Nat.zero_le i)
  rw [if_pos (by omega : i - 0 < rows.length)] at hsl
  refine ⟨?_, ?_, ?_⟩
  · simp [produce_realtime_data, hsl]
  · simp [produce_realtime_data, hsl]
  · cases fetch with
    | error e => rfl
    | ok rows' =>
      rcases hsl' : sendLoop fails rows' 0 with ⟨s, e⟩
      simp [produce_realtime_data, hsl']

/-- Witness for `produce_partial_failure_reporting`: two rows, the
second send fails. -/
theorem produce_partial_failure_reporting_witness :
    ((∀ j, j < 1 → (fun i => decide (i = 1)) j = false) ∧
      (fun i => decide (i = 1)) 1 = true ∧
      1 < ([[("a", Val.num 1)], [("b", Val.num 2)]] : List RawRow).length) ∧
    ((produce_realtime_data (.ok [[("a", Val.num 1)], [("b", Val.num 2)]])
        (fun i => decide (i = 1))).sent =
      ([[("a", Val.num 1)], [("b", Val.num 2)]] : List RawRow).take 1 ∧
    (produce_realtime_data (.ok [[("a", Val.num 1)], [("b", Val.num 2)]])
        (fun i => decide (i = 1))).err = some .kafkaSendError ∧
    (produce_realtime_data (.error .fetchError) (fun i => decide (i = 1))).retVal =
      none) :=
  ⟨⟨by decide, by decide, by decide⟩,
    produce_partial_failure_reporting [[("a", Val.num 1)], [("b", Val.num 2)]] 1
      (fun i => decide (i = 1)) (.error .fetchError)
      (by decide) (by decide) (by decide)⟩

/-! ## C8 — sentinel handling -/

/-- The end-to-end scenario of §8 of the specification: three readings
for segment `"123"` with speeds 15, −1, 25 published and consumed. -/
def scenarioMsgs : List WireMsg :=
  [.ok [("segmentid", Val.str "123"), ("current_speed", Val.num 15)],
   .ok [("segmentid", Val.str "123"), ("current_speed", Val.num (-1))],
   .ok [("segmentid", Val.str "123"), ("current_speed", Val.num 25)]]

/-- C8: a stored reading whose `current_speed` is −1 is exposed to the
dashboard as a missing (null) speed, never as a literal −1; in the
end-to-end scenario with speeds 15, −1, 25 the table holds 3 rows and
the dashboard's per-row speed view is [15, null, 25], the cycle ending
by idle timeout. -/
theorem sentinel_null_downstream (r : List Val)
    (h : storedSpeed r = Val.num (-1)) :
    dashboardSpeed r = none ∧
    (consume_realtime_data scenarioMsgs noFail).rows.length = 3 ∧
    (consume_realtime_data scenarioMsgs noFail).rows.map dashboardSpeed =
      [some 15, none, some 25] ∧
    (consume_realtime_data scenarioMsgs noFail).outcome = .streamEnded := by
  refine ⟨?_, by decide, by decide, by decide⟩
  simp [dashboardSpeed, h, toNumericCell, replaceSentinel]

/-- Witness for `sentinel_null_downstream` at a stored row whose speed
column holds −1. -/
theorem sentinel_null_downstream_witness :
    storedSpeed (List.replicate 12 Val.null ++ [Val.num (-1), Val.null]) =
      Val.num (-1) ∧
    (dashboardSpeed (List.replicate 12 Val.null ++ [Val.num (-1), Val.null]) = none ∧
      (consume_realtime_data scenarioMsgs noFail).rows.length = 3 ∧
      (consume_realtime_data scenarioMsgs noFail).rows.map dashboardSpeed =
        [some 15, none, some 25] ∧
      (consume_realtime_data scenarioMsgs noFail).outcome = .streamEnded) :=
  ⟨by decide, sentinel_null_downstream _ (by decide)⟩

/-! ## C9 — storage connection release -/

/-- C9(counterexample): on the idle-timeout exit path (no message ever
arrives), the consumer's insert connection is opened but never closed. -/
theorem consume_conn_leak_counterexample :
    ConnEvent.opened .mainConn ∈ consumeConnEvents [] noFail ∧
    ConnEvent.closed .mainConn ∉ consumeConnEvents [] noFail := by
  decide

/-- C9(amended): every invocation of the consume cycle opens its insert
connection, and no exit path — quota, idle timeout, or error — ever
closes it; only the table-ensuring helper closes its own short-lived
connection. -/
theorem consume_conn_never_closed (msgs : List WireMsg) (failAt : Nat → Bool) :
    ConnEvent.opened .mainConn ∈ consumeConnEvents msgs failAt ∧
    ConnEvent.closed .mainConn ∉ consumeConnEvents msgs failAt ∧
    ConnEvent.closed .ensureConn ∈ consumeConnEvents msgs failAt := by
  refine ⟨?_, ?_, ?_⟩ <;> simp [consumeConnEvents]

/-! ## C10 — batch load replaces its tables wholesale -/

theorem load_csv_eval (csv : String → List (List Val)) (db : TableDB) (u : String) :
    load_csv_to_postgres csv db u =
      if u = "traffic_crashes" then csv "data/traffic_crashes.csv"
      else if u = "speed_camera_violations" then csv "data/speed_camera_violations.csv"
      else if u = "red_light_violations" then csv "data/red_light_violations.csv"
      else if u = "historical_traffic" then csv "data/historical_traffic.csv"
      else db u := rfl

/-- C10: the batch-load step rewrites each of the four batch tables
wholesale — the resulting contents are the CSV rows, independent of
whatever the table held before — and leaves `realtime_traffic_data`
untouched; `main` runs it unconditionally before starting the consumer
thread. -/
theorem load_csv_replaces_batch_tables (csv : String → List (List Val))
    (db db' : TableDB) (t : String) (ht : t ∈ batchFiles.map Prod.fst) :
    load_csv_to_postgres csv db t = load_csv_to_postgres csv db' t ∧
    (∃ p, (t, p) ∈ batchFiles ∧ load_csv_to_postgres csv db t = csv p) ∧
    load_csv_to_postgres csv db "realtime_traffic_data" =
      db "realtime_traffic_data" ∧
    (MainStep.loadCsv ∈ mainSteps ∧
      mainSteps.indexOf MainStep.loadCsv <
        mainSteps.indexOf MainStep.startConsumerThread) := by
  have huntouched : load_csv_to_postgres csv db "realtime_traffic_data" =
      db "realtime_traffic_data" := by
    rw [load_csv_eval]
    simp
  simp only [batchFiles, List.map_cons, List.map_nil, List.mem_cons,
    List.not_mem_nil, or_false] at ht
  rcases ht with rfl | rfl | rfl | rfl
  · exact ⟨by rw [load_csv_eval, load_csv_eval]; simp, ⟨"data/historical_traffic.csv",
      by decide, by rw [load_csv_eval]; simp⟩, huntouched, by decide, by decide⟩
  · exact ⟨by rw [load_csv_eval, load_csv_eval]; simp, ⟨"data/red_light_violations.csv",
      by decide, by rw [load_csv_eval]; simp⟩, huntouched, by decide, by decide⟩
  · exact ⟨by rw [load_csv_eval, load_csv_eval]; simp, ⟨"data/speed_camera_violations.csv",
      by decide, by rw [load_csv_eval]; simp⟩, huntouched, by decide, by decide⟩
  · exact ⟨by rw [load_csv_eval, load_csv_eval]; simp, ⟨"data/traffic_crashes.csv",
      by decide, by rw [load_csv_eval]; simp⟩, huntouched, by decide, by decide⟩

/-- Witness for `load_csv_replaces_batch_tables` at the table
`historical_traffic` with two databases holding different old rows. -/
theorem load_csv_replaces_batch_tables_witness :
    ("historical_traffic" ∈ batchFiles.map Prod.fst) ∧
    (load_csv_to_postgres (fun _ => []) (fun _ => [[Val.num 1]]) "historical_traffic" =
      load_csv_to_postgres (fun _ => []) (fun _ => []) "historical_traffic" ∧
    (∃ p, ("historical_traffic", p) ∈ batchFiles ∧
      load_csv_to_postgres (fun _ => []) (fun _ => [[Val.num 1]]) "historical_traffic" =
        (fun _ => ([] : List (List Val))) p) ∧
    load_csv_to_postgres (fun _ => []) (fun _ => [[Val.num 1]]) "realtime_traffic_data" =
      (fun _ => ([[Val.num 1]] : List (List Val))) "realtime_traffic_data" ∧
    (MainStep.loadCsv ∈ mainSteps ∧
      mainSteps.indexOf MainStep.loadCsv <
        mainSteps.indexOf MainStep.startConsumerThread)) :=
  ⟨by decide, load_csv_replaces_batch_tables (fun _ => []) (fun _ => [[Val.num 1]])
    (fun _ => []) "historical_traffic" (by decide)⟩

end Traffic
